import Mathlib

/-!
# sqliteutil: opening and migrating a SQLite database

A shallow embedding of `sqliteutil.go` (`OpenSqlite`, `wrapErr`,
`OpenAndMigrateSqlite`) together with the small part of the Go standard
library that the two functions call.

* The functions of the package are pure functions over an explicit `World`
  (the handles of `database/sql`, the files on disk, the log of calls made to
  the outside).  What a call to the outside answers (an error or none, the
  journal mode the engine reports) is not decided by the package: it is read
  from an environment record (`OpenEnv`, `Env`), one field per call site.
* A Go `error` is `Option GoError` (`none` is `nil`), a `*sql.DB` is
  `Option Handle` (`none` is `nil`).
* A Go `string` is a Lean `String`, standing for its UTF-8 bytes.
-/

namespace sqliteutil

/-! ## Go errors -/

/-- Go error values, by dynamic type. `errorString` stands for the results of
`errors.New` and of `fmt.Errorf` without `%w` (and for any error of a type not
listed here, by its message); the two sentinels compared by identity in the
standard library have a constructor of their own. -/
inductive GoError where
  /-- A value of `errors.New(s)` or `fmt.Errorf(s)`. -/
  | errorString (s : String)
  /-- The `*fmt.wrapError` built by `fmt.Errorf` with one `%w` verb. -/
  | wrapError (msg : String) (err : GoError)
  /-- The sentinel `fs.ErrNotExist` (`os.ErrNotExist`). -/
  | ErrNotExist
  /-- The sentinel `exec.ErrNotFound`. -/
  | ErrNotFound
  /-- A `syscall.Errno`; `text` is its entry in the message table of the platform. -/
  | Errno (e : Nat) (text : String)
  /-- A `*fs.PathError`. -/
  | PathError (Op Path : String) (Err : GoError)
  /-- A `*os.LinkError`. -/
  | LinkError (Op Old New : String) (Err : GoError)
  /-- A `*os.SyscallError`. -/
  | SyscallError (Syscall : String) (Err : GoError)
  /-- The `*exec.Error` returned by `exec.LookPath`. -/
  | ExecError (Name : String) (Err : GoError)
deriving DecidableEq, Repr

/-- The value `syscall.ENOENT`. -/
def ENOENT : Nat := 2

/-- The method `Error()`. `strconv.Quote` in `(*exec.Error).Error` is rendered
by the surrounding double quotes, which is what it yields on a name of
printable ASCII without quote or backslash such as `atlas`. -/
def GoError.Error : GoError → String
  | .errorString s => s
  | .wrapError msg _ => msg
  | .ErrNotExist => "file does not exist"
  | .ErrNotFound => "executable file not found in $PATH"
  | .Errno _ text => text
  | .PathError op path err => op ++ " " ++ path ++ ": " ++ err.Error
  | .LinkError op old new err => op ++ " " ++ old ++ " " ++ new ++ ": " ++ err.Error
  | .SyscallError syscall err => syscall ++ ": " ++ err.Error
  | .ExecError name err => "exec: " ++ "\"" ++ name ++ "\"" ++ ": " ++ err.Error

/-- The function `errors.Unwrap`: the result of the `Unwrap() error` method
of the types that have one. -/
def GoError.Unwrap : GoError → Option GoError
  | .wrapError _ err => some err
  | .PathError _ _ err => some err
  | .LinkError _ _ _ err => some err
  | .SyscallError _ err => some err
  | .ExecError _ err => some err
  | _ => none

/-- The helper `underlyingError` of package `os`: it unwraps `*PathError`,
`*LinkError` and `*SyscallError`, and nothing else. -/
def underlyingError : GoError → GoError
  | .PathError _ _ err => err
  | .LinkError _ _ _ err => err
  | .SyscallError _ err => err
  | err => err

/-- The function `os.IsNotExist` (`underlyingErrorIs(err, ErrNotExist)`): the
underlying error is the sentinel `ErrNotExist`, or a `syscall.Errno` whose
`Is(ErrNotExist)` holds, that is `ENOENT`. -/
def os.IsNotExist : Option GoError → Bool
  | none => false
  | some err =>
    match underlyingError err with
    | .ErrNotExist => true
    | .Errno e _ => e == ENOENT
    | _ => false

/-- The call `fmt.Errorf(format, err)` for a format made of the text `pre`
followed by the verb `%w`. -/
def Errorf_w (pre : String) (err : GoError) : GoError :=
  .wrapError (pre ++ err.Error) err

/-- The call `fmt.Errorf(format)` for a format without verbs. -/
def Errorf (format : String) : GoError :=
  .errorString format

/-! ## The world outside the package -/

/-- A `*sql.DB` value, by identity. -/
abbrev Handle := Nat

/-- What is tracked of one `sql.DB`. -/
structure DB where
  driverName : String
  dataSourceName : String
  /-- The limit set by `SetMaxOpenConns`; `0` is the default, unlimited. -/
  maxOpenConns : Nat
  /-- Whether `Close` has been called. -/
  closed : Bool
  /-- The journal mode reported by the engine in reply to the last
  `PRAGMA journal_mode` statement executed through the handle, if any. -/
  journalMode : Option String
deriving DecidableEq, Repr

/-- The standard streams a command may be attached to. -/
inductive Stream where
  | osStdin
  | osStdout
  | osStderr
deriving DecidableEq, Repr

/-- The fields of `exec.Cmd` that the package sets. -/
structure Cmd where
  name : String
  args : List String
  Stdin : Option Stream
  Stdout : Option Stream
  Stderr : Option Stream
deriving DecidableEq, Repr

/-- One call made to the outside, with what it answered. -/
inductive Event where
  | MkdirAll (path : String) (perm : Nat) (err : Option GoError)
  | Open (driverName dataSourceName : String) (db : Option Handle) (err : Option GoError)
  | SetMaxOpenConns (db : Handle) (n : Nat)
  | Exec (db : Handle) (query : String) (err : Option GoError)
  | Close (db : Handle) (err : Option GoError)
  | LookPath (file : String) (err : Option GoError)
  | WriteFile (name data : String) (perm : Nat) (err : Option GoError)
  | Remove (name : String) (err : Option GoError)
  | Run (cmd : Cmd) (err : Option GoError)
  | Warn (msg key : String) (err : GoError)
deriving DecidableEq, Repr

/-- The kind of a call. -/
inductive Step where
  | mkdirAll
  | sqlOpen
  | setMaxOpenConns
  | exec
  | close
  | lookPath
  | writeFile
  | remove
  | run
  | warn
deriving DecidableEq, Repr

/-- The kind of the call of an event. -/
def Event.step : Event → Step
  | .MkdirAll .. => .mkdirAll
  | .Open .. => .sqlOpen
  | .SetMaxOpenConns .. => .setMaxOpenConns
  | .Exec .. => .exec
  | .Close .. => .close
  | .LookPath .. => .lookPath
  | .WriteFile .. => .writeFile
  | .Remove .. => .remove
  | .Run .. => .run
  | .Warn .. => .warn

/-- The error a call answered, `none` when it succeeded or answers none. -/
def Event.err : Event → Option GoError
  | .MkdirAll _ _ err => err
  | .Open _ _ _ err => err
  | .SetMaxOpenConns _ _ => none
  | .Exec _ _ err => err
  | .Close _ err => err
  | .LookPath _ err => err
  | .WriteFile _ _ _ err => err
  | .Remove _ err => err
  | .Run _ err => err
  | .Warn _ _ _ => none

/-- The state outside the package. -/
structure World where
  /-- The `sql.DB` values created so far. -/
  dbs : Handle → Option DB
  /-- The handle the next `sql.Open` creates. -/
  next : Handle
  /-- The names of the files that exist. -/
  files : List String
  /-- The calls made so far, oldest first. -/
  log : List Event

/-- A world without handles, files or calls. -/
def World.init : World :=
  { dbs := fun _ => none, next := 0, files := [], log := [] }

/-- Append a call to the log. -/
def World.emit (w : World) (e : Event) : World :=
  { w with log := w.log ++ [e] }

/-- Change the record of one handle. -/
def World.modifyDB (w : World) (db : Handle) (f : DB → DB) : World :=
  { w with dbs := fun k => if k = db then (w.dbs k).map f else w.dbs k }

/-- The calls of `w2` made after `w1`. -/
def emitted (w1 w2 : World) : List Event :=
  w2.log.drop w1.log.length

/-- The call `os.MkdirAll(path, perm)`; the directories themselves are not tracked. -/
def os.MkdirAll (err : Option GoError) (path : String) (perm : Nat) (w : World) :
    Option GoError × World :=
  (err, w.emit (.MkdirAll path perm err))

/-- The call `sql.Open(driverName, dataSourceName)`: on success a new handle,
open, with the default limit of connections. -/
def sql.Open (err : Option GoError) (driverName dataSourceName : String) (w : World) :
    (Option Handle × Option GoError) × World :=
  match err with
  | some e => ((none, some e), w.emit (.Open driverName dataSourceName none (some e)))
  | none =>
    let db : Handle := w.next
    ((some db, none),
      { dbs := fun k => if k = db then
          some { driverName := driverName, dataSourceName := dataSourceName,
                 maxOpenConns := 0, closed := false, journalMode := none }
          else w.dbs k,
        next := w.next + 1,
        files := w.files,
        log := w.log ++ [.Open driverName dataSourceName (some db) none] })

/-- The method `(*sql.DB).SetMaxOpenConns(n)`. -/
def sql.SetMaxOpenConns (db : Handle) (n : Nat) (w : World) : World :=
  (w.modifyDB db fun d => { d with maxOpenConns := n }).emit (.SetMaxOpenConns db n)

/-- The method `(*sql.DB).Exec(query)`; its `sql.Result` is not modelled, the
package discards it. When the statement is the journal-mode pragma and no
error comes back, the handle records `reply`, the journal mode the engine
reports for the database after the statement. -/
def sql.Exec (err : Option GoError) (reply : String) (db : Handle) (query : String)
    (w : World) : Option GoError × World :=
  match err with
  | some e => (some e, w.emit (.Exec db query (some e)))
  | none =>
    (none,
      (if query = "PRAGMA journal_mode=WAL" then
        w.modifyDB db fun d => { d with journalMode := some reply }
       else w).emit (.Exec db query none))

/-- The method `(*sql.DB).Close()`: the handle is closed whatever error the
connections report on closing. -/
def sql.Close (err : Option GoError) (db : Handle) (w : World) : Option GoError × World :=
  (err, (w.modifyDB db fun d => { d with closed := true }).emit (.Close db err))

/-- The call `exec.LookPath(file)`; the path found is not modelled, the
package discards it. -/
def exec.LookPath (err : Option GoError) (file : String) (w : World) :
    Option GoError × World :=
  (err, w.emit (.LookPath file err))

/-- The call `os.WriteFile(name, data, perm)`: on success the file exists. -/
def os.WriteFile (err : Option GoError) (name data : String) (perm : Nat) (w : World) :
    Option GoError × World :=
  match err with
  | some e => (some e, w.emit (.WriteFile name data perm (some e)))
  | none =>
    (none, { w with files := name :: w.files.filter (fun f => f ≠ name),
                    log := w.log ++ [.WriteFile name data perm none] })

/-- The call `os.Remove(name)`: on success the file does not exist. -/
def os.Remove (err : Option GoError) (name : String) (w : World) : Option GoError × World :=
  match err with
  | some e => (some e, w.emit (.Remove name (some e)))
  | none =>
    (none, { w with files := w.files.filter (fun f => f ≠ name),
                    log := w.log ++ [.Remove name none] })

/-- The method `(*exec.Cmd).Run()`; what the subprocess does to the database
is outside the model. -/
def exec.Run (err : Option GoError) (cmd : Cmd) (w : World) : Option GoError × World :=
  (err, w.emit (.Run cmd err))

/-- The call `slog.Warn(msg, key, err)`. -/
def slog.Warn (msg key : String) (err : GoError) (w : World) : World :=
  w.emit (.Warn msg key err)

/-! ## `net/url` -/

/-- The table `upperhex`. -/
def upperhex (n : Nat) : Char :=
  "0123456789ABCDEF".data.getD n '0'

/-- The function `shouldEscape(c, encodePath)` on a byte below `0x80`, given
as a character: letters, digits and the marks `-_.~` are kept, of the
reserved characters `$&+,/:;=?@` only `?` is escaped, everything else is
escaped. -/
def shouldEscape (c : Char) : Bool :=
  if c.isAlphanum then false
  else if c = '-' ∨ c = '_' ∨ c = '.' ∨ c = '~' then false
  else if c = '$' ∨ c = '&' ∨ c = '+' ∨ c = ',' ∨ c = '/' ∨ c = ':' ∨ c = ';' ∨ c = '='
      ∨ c = '?' ∨ c = '@' then c = '?'
  else true

/-- The three bytes `%XX` written for an escaped byte. -/
def escapeByte (b : Nat) : List Char :=
  ['%', upperhex (b / 16), upperhex (b % 16)]

/-- The bytes written by `escape(s, encodePath)` for one character of `s`:
a byte below `0x80` is kept or escaped as `shouldEscape` says, every byte of
a longer UTF-8 sequence is escaped. -/
def escapeChar (c : Char) : List Char :=
  if c.toNat < 128 then
    if shouldEscape c then escapeByte c.toNat else [c]
  else
    (String.utf8EncodeChar c).flatMap fun b => escapeByte b.toNat

/-- The function `escape(s, encodePath)`. -/
def escape (s : String) : String :=
  ⟨s.data.flatMap escapeChar⟩

/-- The fields of `url.URL` that the package sets; `Opaque`, `User`, `Host`,
`RawPath`, `OmitHost`, `ForceQuery`, `RawQuery`, `Fragment` and `RawFragment`
keep their zero value. -/
structure URL where
  Scheme : String
  Path : String
deriving DecidableEq, Repr

/-- The method `(*URL).EscapedPath()` with `RawPath` empty. -/
def URL.EscapedPath (u : URL) : String :=
  if u.Path = "*" then "*" else escape u.Path

/-- The method `(*URL).String()` with the fields that are not in `URL` at
their zero value: the scheme and a colon when there is a scheme; with a scheme,
`//` when the path is not empty (there is no host and no user to follow it);
without a scheme, `./` before a path whose first segment has a colon; then the
escaped path. -/
def URL.String (u : URL) : String :=
  let buf := if u.Scheme ≠ "" then u.Scheme ++ ":" else ""
  let buf := if u.Scheme ≠ "" then (if u.Path ≠ "" then buf ++ "//" else buf) else buf
  let path := u.EscapedPath
  let buf := if buf = "" then
      (if ':' ∈ path.data.takeWhile (fun c => c ≠ '/') then buf ++ "./" else buf)
    else buf
  buf ++ path

/-! ## The package -/

/-- The answers of the outside to one call of `OpenSqlite`. -/
structure OpenEnv where
  /-- The function `filepath.Dir` of the platform. -/
  Dir : String → String
  /-- The error of `os.MkdirAll`. -/
  mkdirAll : Option GoError
  /-- The error of `sql.Open`. -/
  sqlOpen : Option GoError
  /-- The error of `db.Exec`. -/
  exec : Option GoError
  /-- The journal mode the engine reports after the pragma. -/
  journalMode : String

/-- The function `wrapErr`. -/
def wrapErr (err : GoError) : GoError :=
  Errorf_w "open sqlite: " err

/-- The function `OpenSqlite`. `sql.Open` never answers a nil handle with a
nil error; were it to, the Go code would dereference nil, and the model hands
the pair on unchanged. -/
def OpenSqlite (o : OpenEnv) (path : String) (w : World) :
    (Option Handle × Option GoError) × World :=
  let w := if path ≠ ":memory:" then (os.MkdirAll o.mkdirAll (o.Dir path) 0o777 w).2 else w
  match sql.Open o.sqlOpen "sqlite" path w with
  | ((_, some err), w) => ((none, some (wrapErr err)), w)
  | ((none, none), w) => ((none, none), w)
  | ((some db, none), w) =>
    let w := sql.SetMaxOpenConns db 1 w
    match sql.Exec o.exec o.journalMode db "PRAGMA journal_mode=WAL" w with
    | (some err, w) => ((none, some (wrapErr err)), w)
    | (none, w) => ((some db, none), w)

/-- The answers of the outside to one call of `OpenAndMigrateSqlite`, one
field per call site. -/
structure Env where
  /-- The answers to the first `OpenSqlite(path)`. -/
  first : OpenEnv
  /-- The error of `db.Close()`. -/
  close : Option GoError
  /-- The error of `exec.LookPath("atlas")`. -/
  lookPath : Option GoError
  /-- The error of `os.WriteFile`. -/
  writeFile : Option GoError
  /-- The error of `cmd.Run()`. -/
  run : Option GoError
  /-- The error of the deferred `os.Remove`. -/
  remove : Option GoError
  /-- The answers to the final `OpenSqlite(path)`. -/
  second : OpenEnv

/-- The value `dbUrl` built by `OpenAndMigrateSqlite`. -/
def dbUrl (path : String) : URL :=
  { Scheme := "sqlite", Path := path }

/-- The value `cmd` built by `OpenAndMigrateSqlite`: `exec.Command` with the
name and the arguments, then the three standard streams. -/
def cmd (path : String) : Cmd :=
  { name := "atlas",
    args := ["schema", "apply",
      "--url", (dbUrl path).String,
      "--to", "file://temp_migration_schema.sql",
      "--dev-url", "sqlite://file?mode=memory"],
    Stdin := some .osStdin,
    Stdout := some .osStdout,
    Stderr := some .osStderr }

/-- The deferred function of `OpenAndMigrateSqlite`: it removes the temporary
file and logs a warning when that fails. It assigns the local variable `err`
only; the results of the function are unnamed and already evaluated when it
runs, so it has no access to them. -/
def deferredRemove (remove : Option GoError) (w : World) : World :=
  match os.Remove remove "temp_migration_schema.sql" w with
  | (some err, w) => slog.Warn "could not delete temp_migration_schema.sql" "err" err w
  | (none, w) => w

/-- The part of `OpenAndMigrateSqlite` that follows the `defer` statement. -/
def migrate (env : Env) (path : String) (w : World) :
    (Option Handle × Option GoError) × World :=
  match exec.Run env.run (cmd path) w with
  | (some err, w) => ((none, some (wrapErr err)), w)
  | (none, w) => OpenSqlite env.second path w

/-- The function `OpenAndMigrateSqlite`. A nil handle with a nil error from
the first `OpenSqlite` would be a nil dereference at `db.Close()` in Go; the
model hands the pair on unchanged. -/
def OpenAndMigrateSqlite (env : Env) (schema path : String) (w : World) :
    (Option Handle × Option GoError) × World :=
  match OpenSqlite env.first path w with
  | ((_, some err), w) => ((none, some (wrapErr err)), w)
  | ((none, none), w) => ((none, none), w)
  | ((some db, none), w) =>
    match sql.Close env.close db w with
    | (some err, w) => ((none, some (wrapErr err)), w)
    | (none, w) =>
      match exec.LookPath env.lookPath "atlas" w with
      | (err, w) =>
        if os.IsNotExist err then
          ((some db, some (wrapErr (Errorf
            "could not find 'atlas' executable on path, is it installed? skipping migrations..."))),
            w)
        else
          match os.WriteFile env.writeFile "temp_migration_schema.sql" schema 0o666 w with
          | (some err, w) => ((none, some (wrapErr err)), w)
          | (none, w) =>
            match migrate env path w with
            | (res, w) => (res, deferredRemove env.remove w)

/-! ## URI components, the yardstick for the serialised URL -/

/-- The five components of a URI, RFC 3986 section 3. -/
structure Components where
  scheme : Option String
  authority : Option String
  path : String
  query : Option String
  fragment : Option String
deriving DecidableEq, Repr

/-- The split of a URI into its components by the expression of RFC 3986,
Appendix B: a scheme up to the first colon, an authority after `//` up to the
next `/`, `?` or `#`, a path up to `?` or `#`, a query after `?` up to `#`, a
fragment after `#`. This is not code of the package: it gives the words
scheme and path component of a URL string their standard meaning. -/
def rfc3986.split (s : String) : Components :=
  let cs := s.data
  let pre := cs.takeWhile (fun c => c ≠ ':' ∧ c ≠ '/' ∧ c ≠ '?' ∧ c ≠ '#')
  let (scheme, rest) :=
    match pre, cs.drop pre.length with
    | _ :: _, ':' :: rest => (some (String.mk pre), rest)
    | _, _ => (none, cs)
  let (authority, rest) :=
    match rest with
    | '/' :: '/' :: r =>
      (some (String.mk (r.takeWhile (fun c => c ≠ '/' ∧ c ≠ '?' ∧ c ≠ '#'))),
        r.dropWhile (fun c => c ≠ '/' ∧ c ≠ '?' ∧ c ≠ '#'))
    | _ => (none, rest)
  let path := rest.takeWhile (fun c => c ≠ '?' ∧ c ≠ '#')
  let rest := rest.dropWhile (fun c => c ≠ '?' ∧ c ≠ '#')
  let (query, rest) :=
    match rest with
    | '?' :: r =>
      (some (String.mk (r.takeWhile (fun c => c ≠ '#'))), r.dropWhile (fun c => c ≠ '#'))
    | _ => (none, rest)
  let fragment :=
    match rest with
    | '#' :: r => some (String.mk r)
    | _ => none
  { scheme := scheme, authority := authority, path := String.mk path, query := query,
    fragment := fragment }

/-! ## The calls of a run, and the runs used as examples -/

/-- The calls one run of `OpenSqlite` makes, `next` being the handle a
successful `sql.Open` creates. -/
def OpenSqlite.calls (o : OpenEnv) (path : String) (next : Handle) : List Event :=
  (if path ≠ ":memory:" then [Event.MkdirAll (o.Dir path) 0o777 o.mkdirAll] else []) ++
    match o.sqlOpen with
    | some e => [Event.Open "sqlite" path none (some e)]
    | none =>
      [Event.Open "sqlite" path (some next) none,
       Event.SetMaxOpenConns next 1,
       Event.Exec next "PRAGMA journal_mode=WAL" o.exec]

/-- The calls of the deferred function. -/
def deferredRemove.calls (remove : Option GoError) : List Event :=
  Event.Remove "temp_migration_schema.sql" remove ::
    match remove with
    | some e => [Event.Warn "could not delete temp_migration_schema.sql" "err" e]
    | none => []

/-- The calls one run of `OpenAndMigrateSqlite` makes. -/
def OpenAndMigrateSqlite.calls (env : Env) (schema path : String) (next : Handle) :
    List Event :=
  OpenSqlite.calls env.first path next ++
    match env.first.sqlOpen, env.first.exec with
    | none, none =>
      Event.Close next env.close ::
        match env.close with
        | some _ => []
        | none =>
          Event.LookPath "atlas" env.lookPath ::
            if os.IsNotExist env.lookPath then []
            else
              Event.WriteFile "temp_migration_schema.sql" schema 0o666 env.writeFile ::
                match env.writeFile with
                | some _ => []
                | none =>
                  Event.Run (cmd path) env.run ::
                    ((match env.run with
                      | some _ => []
                      | none => OpenSqlite.calls env.second path (next + 1)) ++
                      deferredRemove.calls env.remove)
    | _, _ => []

/-- The driver open, or else the pragma, of this `OpenSqlite` fails with
cause `e`. -/
def OpenEnv.failsWith (o : OpenEnv) (e : GoError) : Prop :=
  o.sqlOpen = some e ∨ (o.sqlOpen = none ∧ o.exec = some e)

instance (o : OpenEnv) (e : GoError) : Decidable (o.failsWith e) := by
  unfold OpenEnv.failsWith
  infer_instance

/-- The error returned with the handle when the lookup of the tool reports
that it does not exist. -/
def softError : GoError :=
  wrapErr (Errorf
    "could not find 'atlas' executable on path, is it installed? skipping migrations...")

/-- The error of `exec.LookPath("atlas")`, and of `cmd.Run()`, when no
directory of the search path holds the executable. -/
def atlasNotFound : GoError :=
  .ExecError "atlas" .ErrNotFound

/-- The values of `filepath.Dir` on the paths of the examples. -/
def exampleDir (path : String) : String :=
  if path = "data/app.db" then "data"
  else if path = "/var/db/app.db" then "/var/db"
  else "."

/-- An `OpenSqlite` in which every call succeeds and the engine switches to
the write-ahead log. -/
def okOpen : OpenEnv :=
  { Dir := exampleDir, mkdirAll := none, sqlOpen := none, exec := none,
    journalMode := "wal" }

/-- An `OpenSqlite` of the in-memory database: no call fails, and the engine
keeps the journal mode `memory`, the only one besides `off` that SQLite has
for an in-memory database. -/
def memoryOpen : OpenEnv :=
  { Dir := exampleDir, mkdirAll := none, sqlOpen := none, exec := none,
    journalMode := "memory" }

/-- A run in which every call succeeds. -/
def okEnv : Env :=
  { first := okOpen, close := none, lookPath := none, writeFile := none, run := none,
    remove := none, second := okOpen }

/-- A run on a machine without `atlas`: the lookup and the launch of the
command both answer `atlasNotFound`, every other call succeeds. -/
def missingAtlasEnv : Env :=
  { okEnv with lookPath := some atlasNotFound, run := some atlasNotFound }

/-- A run in which the lookup answers `fs.ErrNotExist`, an error that
`os.IsNotExist` accepts. -/
def notExistEnv : Env :=
  { okEnv with lookPath := some .ErrNotExist }

/-! ## The log, the result and the world of `OpenSqlite` -/

theorem emitted_append (w1 w2 : World) (l : List Event) (h : w2.log = w1.log ++ l) :
    emitted w1 w2 = l := by
  simp [emitted, h]

theorem OpenSqlite_log (o : OpenEnv) (path : String) (w : World) :
    (OpenSqlite o path w).2.log = w.log ++ OpenSqlite.calls o path w.next := by
  unfold OpenSqlite OpenSqlite.calls
  by_cases hp : path = ":memory:" <;> cases ho : o.sqlOpen <;> cases he : o.exec <;>
    simp [hp, ho, he, sql.Open, sql.Exec, sql.SetMaxOpenConns, os.MkdirAll, World.emit,
      World.modifyDB]

theorem OpenSqlite_emitted (o : OpenEnv) (path : String) (w : World) :
    emitted w (OpenSqlite o path w).2 = OpenSqlite.calls o path w.next :=
  emitted_append _ _ _ (OpenSqlite_log o path w)

theorem OpenSqlite_result (o : OpenEnv) (path : String) (w : World) :
    (OpenSqlite o path w).1 =
      match o.sqlOpen with
      | some e => (none, some (wrapErr e))
      | none =>
        match o.exec with
        | some e => (none, some (wrapErr e))
        | none => (some w.next, none) := by
  unfold OpenSqlite
  by_cases hp : path = ":memory:" <;> cases ho : o.sqlOpen <;> cases he : o.exec <;>
    simp [hp, ho, he, sql.Open, sql.Exec, sql.SetMaxOpenConns, os.MkdirAll, World.emit,
      World.modifyDB]

theorem OpenSqlite_files (o : OpenEnv) (path : String) (w : World) :
    (OpenSqlite o path w).2.files = w.files := by
  unfold OpenSqlite
  by_cases hp : path = ":memory:" <;> cases ho : o.sqlOpen <;> cases he : o.exec <;>
    simp [hp, ho, he, sql.Open, sql.Exec, sql.SetMaxOpenConns, os.MkdirAll, World.emit,
      World.modifyDB]

theorem OpenSqlite_next (o : OpenEnv) (path : String) (w : World) :
    (OpenSqlite o path w).2.next = if o.sqlOpen = none then w.next + 1 else w.next := by
  unfold OpenSqlite
  by_cases hp : path = ":memory:" <;> cases ho : o.sqlOpen <;> cases he : o.exec <;>
    simp [hp, ho, he, sql.Open, sql.Exec, sql.SetMaxOpenConns, os.MkdirAll, World.emit,
      World.modifyDB]

theorem OpenSqlite_dbs (o : OpenEnv) (path : String) (w : World)
    (ho : o.sqlOpen = none) (he : o.exec = none) :
    (OpenSqlite o path w).2.dbs w.next =
      some { driverName := "sqlite", dataSourceName := path, maxOpenConns := 1,
             closed := false, journalMode := some o.journalMode } := by
  unfold OpenSqlite
  by_cases hp : path = ":memory:" <;>
    simp [hp, ho, he, sql.Open, sql.Exec, sql.SetMaxOpenConns, os.MkdirAll, World.emit,
      World.modifyDB]

/-! ## Claims on `OpenSqlite` -/

/-- C6: `OpenSqlite` calls `os.MkdirAll` if and only if the path is not
`:memory:`. For `:memory:` none of its calls is a directory creation; for any
other path its first call is `os.MkdirAll(filepath.Dir(path), 0777)`, the
next one is `sql.Open("sqlite", path)`, and no later call creates a
directory, so exactly one creation is issued and it precedes the open. -/
theorem OpenSqlite_mkdirAll_iff_not_memory (o : OpenEnv) (path : String) (w : World) :
    ((∃ ev ∈ emitted w (OpenSqlite o path w).2, ev.step = Step.mkdirAll) ↔
        path ≠ ":memory:") ∧
    (path = ":memory:" →
        ∀ ev ∈ emitted w (OpenSqlite o path w).2, ev.step ≠ Step.mkdirAll) ∧
    (path ≠ ":memory:" →
        (∃ db err rest, emitted w (OpenSqlite o path w).2 =
            Event.MkdirAll (o.Dir path) 0o777 o.mkdirAll ::
              Event.Open "sqlite" path db err :: rest ∧
            ∀ ev ∈ rest, ev.step ≠ Step.mkdirAll) ∧
        (emitted w (OpenSqlite o path w).2).filter (fun ev => ev.step = Step.mkdirAll) =
          [Event.MkdirAll (o.Dir path) 0o777 o.mkdirAll]) := by
  rw [OpenSqlite_emitted]
  unfold OpenSqlite.calls
  by_cases hp : path = ":memory:"
  · cases ho : o.sqlOpen <;> simp [hp, ho, Event.step]
  · cases ho : o.sqlOpen
    · simp only [hp, ho, ne_eq, not_false_eq_true, if_true]
      refine ⟨?_, ?_, fun _ => ⟨⟨_, _, _, rfl, ?_⟩, ?_⟩⟩ <;> simp [Event.step]
    · simp only [hp, ho, ne_eq, not_false_eq_true, if_true]
      refine ⟨?_, ?_, fun _ => ⟨⟨_, _, _, rfl, ?_⟩, ?_⟩⟩ <;> simp [Event.step]

/-- C6 at `data/app.db`: the first two calls are the creation of `data` with
mode 0777 and the open. -/
theorem OpenSqlite_mkdirAll_iff_not_memory_witness :
    (∃ db err rest, emitted World.init (OpenSqlite okOpen "data/app.db" World.init).2 =
        Event.MkdirAll "data" 0o777 none :: Event.Open "sqlite" "data/app.db" db err :: rest ∧
        ∀ ev ∈ rest, ev.step ≠ Step.mkdirAll) ∧
    (emitted World.init (OpenSqlite okOpen "data/app.db" World.init).2).filter
        (fun ev => ev.step = Step.mkdirAll) = [Event.MkdirAll "data" 0o777 none] :=
  (OpenSqlite_mkdirAll_iff_not_memory okOpen "data/app.db" World.init).2.2 (by decide)

/-- C7 as stated fails at the in-memory database: opening `:memory:` with an
engine that keeps the journal mode `memory` returns handle 0 with a nil
error, its limit of connections is 1 and the pragma was executed without
error, yet the journal mode of the database is `memory`, not `wal`. -/
theorem OpenSqlite_memory_journalMode_not_wal :
    (OpenSqlite memoryOpen ":memory:" World.init).1 = (some 0, none) ∧
    Event.Exec 0 "PRAGMA journal_mode=WAL" none ∈
      emitted World.init (OpenSqlite memoryOpen ":memory:" World.init).2 ∧
    ((OpenSqlite memoryOpen ":memory:" World.init).2.dbs 0).map DB.maxOpenConns = some 1 ∧
    ((OpenSqlite memoryOpen ":memory:" World.init).2.dbs 0).map DB.journalMode =
      some (some "memory") ∧
    ((OpenSqlite memoryOpen ":memory:" World.init).2.dbs 0).map DB.journalMode ≠
      some (some "wal") := by
  decide

/-- C7, amended: when `OpenSqlite` returns a handle with a nil error, its last
three calls are `sql.Open` creating that handle, `SetMaxOpenConns(1)` on it
and then `Exec("PRAGMA journal_mode=WAL")` on it answering no error; the
handle is open with a limit of exactly 1 connection, and the journal mode of
the database is the one the engine reports after the pragma, which the code
does not inspect: it is `wal` exactly when the engine made the switch. -/
theorem OpenSqlite_success_settings (o : OpenEnv) (path : String) (w : World) (db : Handle)
    (h : (OpenSqlite o path w).1 = (some db, none)) :
    (∃ pre, (∀ ev ∈ pre, ev.step = Step.mkdirAll) ∧
      emitted w (OpenSqlite o path w).2 = pre ++
        [Event.Open "sqlite" path (some db) none,
         Event.SetMaxOpenConns db 1,
         Event.Exec db "PRAGMA journal_mode=WAL" none]) ∧
    (OpenSqlite o path w).2.dbs db =
      some { driverName := "sqlite", dataSourceName := path, maxOpenConns := 1,
             closed := false, journalMode := some o.journalMode } ∧
    (((OpenSqlite o path w).2.dbs db).map DB.journalMode = some (some "wal") ↔
      o.journalMode = "wal") := by
  have hr := OpenSqlite_result o path w
  rw [h] at hr
  cases ho : o.sqlOpen with
  | some e => simp [ho] at hr
  | none =>
    cases he : o.exec with
    | some e => simp [ho, he] at hr
    | none =>
      simp [ho, he] at hr
      subst hr
      refine ⟨?_, OpenSqlite_dbs o path w ho he, ?_⟩
      · rw [OpenSqlite_emitted]
        unfold OpenSqlite.calls
        refine ⟨if path ≠ ":memory:" then [Event.MkdirAll (o.Dir path) 0o777 o.mkdirAll]
          else [], ?_, by simp [ho, he]⟩
        by_cases hp : path = ":memory:" <;> simp [hp, Event.step]
      · rw [OpenSqlite_dbs o path w ho he]
        simp

/-- C7, amended, at `data/app.db` with an engine that switches to the
write-ahead log. -/
theorem OpenSqlite_success_settings_witness :
    (OpenSqlite okOpen "data/app.db" World.init).2.dbs 0 =
      some { driverName := "sqlite", dataSourceName := "data/app.db", maxOpenConns := 1,
             closed := false, journalMode := some "wal" } :=
  (OpenSqlite_success_settings okOpen "data/app.db" World.init 0 (by decide)).2.1

/-- C8: `OpenSqlite` returns exactly one of a handle and an error. It returns
a nil handle with an error whose message is `open sqlite: ` followed by the
message of the cause, and which unwraps to the cause, if and only if its
`sql.Open` or its `Exec` of the pragma answered an error; otherwise it returns
a handle with a nil error. When no call other than `os.MkdirAll` fails the
error is nil. -/
theorem OpenSqlite_handle_xor_error (o : OpenEnv) (path : String) (w : World) :
    (((OpenSqlite o path w).1.1 ≠ none ∧ (OpenSqlite o path w).1.2 = none) ∨
      ((OpenSqlite o path w).1.1 = none ∧ (OpenSqlite o path w).1.2 ≠ none)) ∧
    (((OpenSqlite o path w).1.1 = none ∧
        ∃ cause, (OpenSqlite o path w).1.2 =
            some (GoError.wrapError ("open sqlite: " ++ cause.Error) cause) ∧
          ∃ ev ∈ emitted w (OpenSqlite o path w).2,
            (ev.step = Step.sqlOpen ∨ ev.step = Step.exec) ∧ ev.err = some cause) ↔
      ∃ ev ∈ emitted w (OpenSqlite o path w).2,
        (ev.step = Step.sqlOpen ∨ ev.step = Step.exec) ∧ ev.err ≠ none) ∧
    ((¬ ∃ ev ∈ emitted w (OpenSqlite o path w).2,
        (ev.step = Step.sqlOpen ∨ ev.step = Step.exec) ∧ ev.err ≠ none) →
      ∃ db, (OpenSqlite o path w).1 = (some db, none)) ∧
    ((∀ ev ∈ emitted w (OpenSqlite o path w).2, ev.err ≠ none → ev.step = Step.mkdirAll) →
      ∃ db, (OpenSqlite o path w).1 = (some db, none)) := by
  rw [OpenSqlite_emitted, OpenSqlite_result]
  unfold OpenSqlite.calls
  by_cases hp : path = ":memory:" <;> cases ho : o.sqlOpen <;> cases he : o.exec <;>
    simp [hp, ho, he, Event.step, Event.err, wrapErr, Errorf_w]

/-- C8 at a run whose directory creation fails and whose other calls
succeed: a handle and a nil error. -/
theorem OpenSqlite_handle_xor_error_witness :
    ∃ db, (OpenSqlite { okOpen with mkdirAll := some (GoError.Errno 13 "permission denied") }
      "data/app.db" World.init).1 = (some db, none) :=
  (OpenSqlite_handle_xor_error { okOpen with mkdirAll := some (GoError.Errno 13 "permission denied") }
    "data/app.db" World.init).2.2.2 (by decide)

/-! ## The log, the result and the world of `OpenAndMigrateSqlite` -/

theorem deferredRemove_log (remove : Option GoError) (w : World) :
    (deferredRemove remove w).log = w.log ++ deferredRemove.calls remove := by
  cases remove <;> simp [deferredRemove, deferredRemove.calls, os.Remove, slog.Warn, World.emit]

theorem deferredRemove_files (w : World) :
    (deferredRemove none w).files = w.files.filter (fun f => f ≠ "temp_migration_schema.sql") := by
  simp [deferredRemove, os.Remove]

theorem OpenAndMigrateSqlite_result (env : Env) (schema path : String) (w : World) :
    (OpenAndMigrateSqlite env schema path w).1 =
      match env.first.sqlOpen with
      | some e => (none, some (wrapErr (wrapErr e)))
      | none =>
        match env.first.exec with
        | some e => (none, some (wrapErr (wrapErr e)))
        | none =>
          match env.close with
          | some e => (none, some (wrapErr e))
          | none =>
            if os.IsNotExist env.lookPath then (some w.next, some softError)
            else
              match env.writeFile with
              | some e => (none, some (wrapErr e))
              | none =>
                match env.run with
                | some e => (none, some (wrapErr e))
                | none =>
                  match env.second.sqlOpen with
                  | some e => (none, some (wrapErr e))
                  | none =>
                    match env.second.exec with
                    | some e => (none, some (wrapErr e))
                    | none => (some (w.next + 1), none) := by
  unfold OpenAndMigrateSqlite migrate
  rcases h1 : OpenSqlite env.first path w with ⟨r1, w1⟩
  have hr1 := OpenSqlite_result env.first path w
  have hn1 := OpenSqlite_next env.first path w
  rw [h1] at hr1 hn1
  simp only at hr1 hn1
  subst hr1
  cases ho : env.first.sqlOpen with
  | some e => simp
  | none =>
    cases he : env.first.exec with
    | some e => simp
    | none =>
      cases hc : env.close with
      | some e => simp [sql.Close]
      | none =>
        by_cases hl : os.IsNotExist env.lookPath = true
        · simp [sql.Close, exec.LookPath, hl, softError]
        · cases hw : env.writeFile with
          | some e => simp [sql.Close, exec.LookPath, hl, os.WriteFile]
          | none =>
            cases hrun : env.run with
            | some e => simp [sql.Close, exec.LookPath, hl, os.WriteFile, exec.Run]
            | none =>
              simp only [sql.Close, exec.LookPath, hl, os.WriteFile, exec.Run]
              simp only [OpenSqlite_result]
              simp [World.emit, World.modifyDB, ho] at hn1 ⊢
              cases env.second.sqlOpen <;> cases env.second.exec <;>
                simp [hn1, World.emit, World.modifyDB]

theorem OpenAndMigrateSqlite_log (env : Env) (schema path : String) (w : World) :
    (OpenAndMigrateSqlite env schema path w).2.log =
      w.log ++ OpenAndMigrateSqlite.calls env schema path w.next := by
  unfold OpenAndMigrateSqlite migrate OpenAndMigrateSqlite.calls
  rcases h1 : OpenSqlite env.first path w with ⟨r1, w1⟩
  have hr1 := OpenSqlite_result env.first path w
  have hn1 := OpenSqlite_next env.first path w
  have hl1 := OpenSqlite_log env.first path w
  rw [h1] at hr1 hn1 hl1
  simp only at hr1 hn1 hl1
  subst hr1
  cases ho : env.first.sqlOpen with
  | some e => simp [hl1]
  | none =>
    cases he : env.first.exec with
    | some e => simp [hl1]
    | none =>
      cases hc : env.close with
      | some e => simp [sql.Close, hl1, World.emit, World.modifyDB]
      | none =>
        by_cases hl : os.IsNotExist env.lookPath = true
        · simp [sql.Close, exec.LookPath, hl, hl1, World.emit, World.modifyDB]
        · cases hw : env.writeFile with
          | some e =>
            simp [sql.Close, exec.LookPath, hl, os.WriteFile, hl1, World.emit, World.modifyDB]
          | none =>
            cases hrun : env.run with
            | some e =>
              simp [sql.Close, exec.LookPath, hl, os.WriteFile, exec.Run, hl1, World.emit,
                World.modifyDB, deferredRemove_log]
            | none =>
              simp only [sql.Close, exec.LookPath, hl, os.WriteFile, exec.Run]
              simp [World.emit, World.modifyDB, ho] at hn1 ⊢
              simp [deferredRemove_log, OpenSqlite_log, hn1, hl1]

theorem OpenAndMigrateSqlite_emitted (env : Env) (schema path : String) (w : World) :
    emitted w (OpenAndMigrateSqlite env schema path w).2 =
      OpenAndMigrateSqlite.calls env schema path w.next :=
  emitted_append _ _ _ (OpenAndMigrateSqlite_log env schema path w)

/-- After a successful write of the temporary file, a removal that does not
fail leaves no such file. -/
theorem OpenAndMigrateSqlite_files (env : Env) (schema path : String) (w : World)
    (ho : env.first.sqlOpen = none) (he : env.first.exec = none) (hc : env.close = none)
    (hl : os.IsNotExist env.lookPath = false) (hw : env.writeFile = none)
    (hr : env.remove = none) :
    (OpenAndMigrateSqlite env schema path w).2.files =
      w.files.filter (fun f => f ≠ "temp_migration_schema.sql") := by
  unfold OpenAndMigrateSqlite migrate
  rcases h1 : OpenSqlite env.first path w with ⟨r1, w1⟩
  have hr1 := OpenSqlite_result env.first path w
  have hf1 := OpenSqlite_files env.first path w
  rw [h1] at hr1 hf1
  simp only [ho, he] at hr1 hf1
  subst hr1
  cases hrun : env.run with
  | some e =>
    simp [sql.Close, exec.LookPath, hl, os.WriteFile, exec.Run, hc, hw, hr, World.emit,
      World.modifyDB, deferredRemove_files, hf1, List.filter_filter]
  | none =>
    simp [sql.Close, exec.LookPath, hl, os.WriteFile, exec.Run, hc, hw, hr, World.emit,
      World.modifyDB, deferredRemove_files, OpenSqlite_files, hf1, List.filter_filter]

/-- The record of the first handle when the run stops at the lookup. -/
theorem OpenAndMigrateSqlite_soft_dbs (env : Env) (schema path : String) (w : World)
    (ho : env.first.sqlOpen = none) (he : env.first.exec = none) (hc : env.close = none)
    (hl : os.IsNotExist env.lookPath = true) :
    (OpenAndMigrateSqlite env schema path w).2.dbs w.next =
      some { driverName := "sqlite", dataSourceName := path, maxOpenConns := 1,
             closed := true, journalMode := some env.first.journalMode } := by
  unfold OpenAndMigrateSqlite
  rcases h1 : OpenSqlite env.first path w with ⟨r1, w1⟩
  have hr1 := OpenSqlite_result env.first path w
  have hd1 := OpenSqlite_dbs env.first path w ho he
  rw [h1] at hr1 hd1
  simp only [ho, he] at hr1 hd1
  subst hr1
  simp [sql.Close, exec.LookPath, hl, hc, World.emit, World.modifyDB, hd1]

/-! ## The serialised URL -/

theorem upperhex_mem (n : Nat) : upperhex n ∈ "0123456789ABCDEF".data := by
  unfold upperhex
  by_cases h : n < 16
  · interval_cases n <;> decide
  · have : "0123456789ABCDEF".data.length ≤ n := by
      have : "0123456789ABCDEF".data.length = 16 := by decide
      omega
    rw [List.getD_eq_default _ _ this]
    decide

theorem escapeByte_no_delim (b : Nat) (c : Char) (h : c ∈ escapeByte b) :
    c ≠ '?' ∧ c ≠ '#' := by
  have key : ∀ x ∈ "0123456789ABCDEF".data, x ≠ '?' ∧ x ≠ '#' := by decide
  simp only [escapeByte, List.mem_cons, List.mem_singleton, List.not_mem_nil, or_false] at h
  rcases h with h | h | h
  · subst h; decide
  · subst h; exact key _ (upperhex_mem _)
  · subst h; exact key _ (upperhex_mem _)

theorem escapeChar_no_delim (x c : Char) (h : c ∈ escapeChar x) : c ≠ '?' ∧ c ≠ '#' := by
  unfold escapeChar at h
  split at h
  · split at h
    · exact escapeByte_no_delim _ _ h
    · rename_i hs
      simp only [List.mem_singleton] at h
      subst h
      constructor
      · intro hc; subst hc; exact hs (by decide)
      · intro hc; subst hc; exact hs (by decide)
  · rw [List.mem_flatMap] at h
    obtain ⟨b, _, hb⟩ := h
    exact escapeByte_no_delim _ _ hb

theorem escape_no_delim (s : String) (c : Char) (h : c ∈ (escape s).data) :
    c ≠ '?' ∧ c ≠ '#' := by
  simp only [escape, List.mem_flatMap] at h
  obtain ⟨x, _, hx⟩ := h
  exact escapeChar_no_delim x c hx

theorem EscapedPath_no_delim (u : URL) (c : Char) (h : c ∈ u.EscapedPath.data) :
    c ≠ '?' ∧ c ≠ '#' := by
  unfold URL.EscapedPath at h
  split at h
  · simp only [List.mem_singleton] at h
    subst h; decide
  · exact escape_no_delim _ c h

theorem escape_cons_slash (t : List Char) :
    (escape (String.mk ('/' :: t))).data = '/' :: (escape (String.mk t)).data := by
  simp only [escape, List.flatMap_cons]
  have : escapeChar '/' = ['/'] := by decide
  rw [this]; rfl

/-- A path without a byte that needs escaping is its own escaped form. -/
theorem escape_eq_self (s : String)
    (h : ∀ c ∈ s.data, c.toNat < 128 ∧ shouldEscape c = false) : escape s = s := by
  obtain ⟨cs⟩ := s
  have key : cs.flatMap escapeChar = cs := by
    induction cs with
    | nil => rfl
    | cons a t ih =>
      have ha := h a (List.mem_cons_self _ _)
      simp only [List.flatMap_cons, escapeChar, ha.1, ha.2, if_true, Bool.false_eq_true,
        if_false]
      rw [ih (fun c hc => h c (List.mem_cons_of_mem _ hc))]
      rfl
  simp only [escape, key]

theorem takeWhile_all {α : Type} (p : α → Bool) (l : List α) (h : ∀ x ∈ l, p x = true) :
    l.takeWhile p = l ∧ l.dropWhile p = [] := by
  induction l with
  | nil => simp
  | cons a t ih =>
    have ha := h a (List.mem_cons_self _ _)
    have := ih (fun x hx => h x (List.mem_cons_of_mem _ hx))
    simp [List.takeWhile_cons, List.dropWhile_cons, ha, this]

theorem takeWhile_agree {α : Type} (p q : α → Bool) (l : List α) (h : ∀ x ∈ l, p x = q x) :
    l.takeWhile p = l.takeWhile q ∧ l.dropWhile p = l.dropWhile q := by
  induction l with
  | nil => simp
  | cons a t ih =>
    have ha := h a (List.mem_cons_self _ _)
    have := ih (fun x hx => h x (List.mem_cons_of_mem _ hx))
    simp [List.takeWhile_cons, List.dropWhile_cons, ha, this]

theorem dbUrl_String (path : String) :
    (dbUrl path).String =
      "sqlite:" ++ (if path = "" then "" else "//") ++ (dbUrl path).EscapedPath := by
  by_cases hp : path = ""
  · subst hp; decide
  · have h1 : ("sqlite" ++ ":" ++ "//" : String) = "sqlite://" := by decide
    have h2 : ("sqlite" ++ ":" : String) = "sqlite:" := by decide
    have h3 : ("sqlite:" ++ "//" : String) = "sqlite://" := by decide
    have h4 : ("sqlite://" : String) ≠ "" := by decide
    have h5 : ("sqlite" : String) ≠ "" := by decide
    simp [URL.String, dbUrl, hp, h1, h2, h3, h4, h5]

/-- The components of the serialised URL of a non-empty path: what precedes
the first `/` of the escaped path is the authority, the rest is the path. -/
theorem split_dbUrl (path : String) (hp : path ≠ "") :
    rfc3986.split (dbUrl path).String =
      { scheme := some "sqlite",
        authority := some (String.mk ((dbUrl path).EscapedPath.data.takeWhile (fun c => c ≠ '/'))),
        path := String.mk ((dbUrl path).EscapedPath.data.dropWhile (fun c => c ≠ '/')),
        query := none,
        fragment := none } := by
  have hU : ((dbUrl path).String).data =
      's' :: 'q' :: 'l' :: 'i' :: 't' :: 'e' :: ':' :: '/' :: '/' ::
        (dbUrl path).EscapedPath.data := by
    rw [dbUrl_String]
    simp only [hp, if_false, String.data_append]
    rfl
  generalize hep : (dbUrl path).EscapedPath.data = ep at hU
  have hnd : ∀ c ∈ ep, c ≠ '?' ∧ c ≠ '#' := by
    intro c hc; rw [← hep] at hc; exact EscapedPath_no_delim _ c hc
  have h3 := takeWhile_agree (fun c => !decide (c = '/') && (!decide (c = '?') && !decide (c = '#')))
    (fun c => !decide (c = '/')) ep (fun x hx => by simp [hnd x hx])
  have h2 := takeWhile_all (fun c => !decide (c = '?') && !decide (c = '#'))
    (ep.dropWhile (fun c => !decide (c = '/')))
    (fun x hx => by simpa using hnd x ((List.dropWhile_sublist _).subset hx))
  unfold rfc3986.split
  simp only [hU]
  simp [List.takeWhile_cons, List.dropWhile_cons, h3.1, h3.2, h2.1, h2.2]

/-! ## Claims on `OpenAndMigrateSqlite` -/

/-- The lookup error of a missing executable is an `*exec.Error`, which
`os.IsNotExist` never accepts; with such an answer the run never returns a
handle together with an error. -/
theorem OpenAndMigrateSqlite_execError_never_soft (env : Env) (schema path : String)
    (w : World) (name : String) (cause : GoError)
    (hl : env.lookPath = some (GoError.ExecError name cause)) :
    ¬ ((OpenAndMigrateSqlite env schema path w).1.1 ≠ none ∧
      (OpenAndMigrateSqlite env schema path w).1.2 ≠ none) := by
  rw [OpenAndMigrateSqlite_result]
  have hf : os.IsNotExist env.lookPath = false := by rw [hl]; rfl
  cases env.first.sqlOpen <;> cases env.first.exec <;> cases env.close <;>
    cases env.writeFile <;> cases env.run <;> cases env.second.sqlOpen <;>
    cases env.second.exec <;> simp [hf]

/-- C1, the run the claim is about: `atlas` is on no directory of the search
path, the first open and its close succeed. `os.IsNotExist` is false on the
error of the lookup, so the branch that returns the handle is skipped; the
temporary file is written, the launch of the command fails with the same
error, and the call returns a nil handle with the error
`open sqlite: exec: "atlas": executable file not found in $PATH`. -/
theorem OpenAndMigrateSqlite_missing_atlas_nil_handle :
    os.IsNotExist (some atlasNotFound) = false ∧
    (OpenAndMigrateSqlite missingAtlasEnv "create table t(x);" "data/app.db" World.init).1 =
      (none, some (wrapErr atlasNotFound)) ∧
    (wrapErr atlasNotFound).Error =
      "open sqlite: exec: \"atlas\": executable file not found in $PATH" ∧
    emitted World.init
        (OpenAndMigrateSqlite missingAtlasEnv "create table t(x);" "data/app.db" World.init).2 =
      [Event.MkdirAll "data" 0o777 none,
       Event.Open "sqlite" "data/app.db" (some 0) none,
       Event.SetMaxOpenConns 0 1,
       Event.Exec 0 "PRAGMA journal_mode=WAL" none,
       Event.Close 0 none,
       Event.LookPath "atlas" (some atlasNotFound),
       Event.WriteFile "temp_migration_schema.sql" "create table t(x);" 0o666 none,
       Event.Run (cmd "data/app.db") (some atlasNotFound),
       Event.Remove "temp_migration_schema.sql" none] := by
  decide

/-- Every run that returns a handle together with an error returns the handle
of the first `OpenSqlite`, after `Close` was called on it without error: the
handle is closed. -/
theorem OpenAndMigrateSqlite_soft_handle_closed (env : Env) (schema path : String)
    (w : World) (db : Handle) (e : GoError)
    (h : (OpenAndMigrateSqlite env schema path w).1 = (some db, some e)) :
    db = w.next ∧ e = softError ∧
    Event.Open "sqlite" path (some db) none ∈
      emitted w (OpenAndMigrateSqlite env schema path w).2 ∧
    Event.Close db none ∈ emitted w (OpenAndMigrateSqlite env schema path w).2 ∧
    ((OpenAndMigrateSqlite env schema path w).2.dbs db).map DB.closed = some true := by
  have hr := OpenAndMigrateSqlite_result env schema path w
  rw [h] at hr
  cases ho : env.first.sqlOpen with
  | some x => simp [ho] at hr
  | none =>
    cases he : env.first.exec with
    | some x => simp [ho, he] at hr
    | none =>
      cases hc : env.close with
      | some x => simp [ho, he, hc] at hr
      | none =>
        by_cases hl : os.IsNotExist env.lookPath = true
        · simp [ho, he, hc, hl] at hr
          obtain ⟨h1, h2⟩ := hr
          subst h1 h2
          refine ⟨rfl, rfl, ?_, ?_, ?_⟩
          · rw [OpenAndMigrateSqlite_emitted]
            simp [OpenAndMigrateSqlite.calls, OpenSqlite.calls, ho, he, hc, hl]
          · rw [OpenAndMigrateSqlite_emitted]
            simp [OpenAndMigrateSqlite.calls, OpenSqlite.calls, ho, he, hc, hl]
          · rw [OpenAndMigrateSqlite_soft_dbs env schema path w ho he hc hl]
            rfl
        · exfalso
          cases hw : env.writeFile <;> cases hrun : env.run <;>
            cases ho2 : env.second.sqlOpen <;> cases he2 : env.second.exec <;>
            simp [ho, he, hc, hl, hw, hrun, ho2, he2] at hr

/-- C2, on both runs the claim can mean. On the machine without `atlas` no
handle is returned at all, and the handle of the first open is left closed.
On the run whose lookup answers an error that `os.IsNotExist` accepts, the
one that takes the branch written for a missing tool, the handle returned with
the diagnostic error is handle 0 of the first open, on which `Close` was
called before the lookup: it is closed when the caller receives it. -/
theorem OpenAndMigrateSqlite_soft_handle_not_usable :
    ((OpenAndMigrateSqlite missingAtlasEnv "create table t(x);" "data/app.db" World.init).1.1 =
        none ∧
      ((OpenAndMigrateSqlite missingAtlasEnv "create table t(x);" "data/app.db"
        World.init).2.dbs 0).map DB.closed = some true) ∧
    ((OpenAndMigrateSqlite notExistEnv "create table t(x);" "data/app.db" World.init).1 =
        (some 0, some softError) ∧
      emitted World.init
          (OpenAndMigrateSqlite notExistEnv "create table t(x);" "data/app.db" World.init).2 =
        [Event.MkdirAll "data" 0o777 none,
         Event.Open "sqlite" "data/app.db" (some 0) none,
         Event.SetMaxOpenConns 0 1,
         Event.Exec 0 "PRAGMA journal_mode=WAL" none,
         Event.Close 0 none,
         Event.LookPath "atlas" (some GoError.ErrNotExist)] ∧
      ((OpenAndMigrateSqlite notExistEnv "create table t(x);" "data/app.db"
        World.init).2.dbs 0).map DB.closed = some true) := by
  decide

/-- C3: in every run of `OpenAndMigrateSqlite`, if a `sql.Open`, an `Exec` of
the pragma, the `Close`, the `os.WriteFile` or the `Run` of the command
answered an error (the steps of the first open, the close, the write, the
subprocess and the final re-open), the call returns a nil handle and a non-nil
error. A handle together with an error is returned only when the lookup of
`atlas` was made and its error passes the test `os.IsNotExist`, the case the
code treats as the missing tool, and the error is then the diagnostic one. A
nil handle is never returned with a nil error. -/
theorem OpenAndMigrateSqlite_result_shape (env : Env) (schema path : String) (w : World) :
    ((∃ ev ∈ emitted w (OpenAndMigrateSqlite env schema path w).2,
        ev.err ≠ none ∧
          (ev.step = Step.sqlOpen ∨ ev.step = Step.exec ∨ ev.step = Step.close ∨
            ev.step = Step.writeFile ∨ ev.step = Step.run)) →
      (OpenAndMigrateSqlite env schema path w).1.1 = none ∧
        (OpenAndMigrateSqlite env schema path w).1.2 ≠ none) ∧
    ((OpenAndMigrateSqlite env schema path w).1.1 ≠ none →
      (OpenAndMigrateSqlite env schema path w).1.2 ≠ none →
        os.IsNotExist env.lookPath = true ∧
        Event.LookPath "atlas" env.lookPath ∈
          emitted w (OpenAndMigrateSqlite env schema path w).2 ∧
        (OpenAndMigrateSqlite env schema path w).1.2 = some softError) ∧
    ¬ ((OpenAndMigrateSqlite env schema path w).1.1 = none ∧
      (OpenAndMigrateSqlite env schema path w).1.2 = none) := by
  rw [OpenAndMigrateSqlite_emitted, OpenAndMigrateSqlite_result]
  unfold OpenAndMigrateSqlite.calls
  cases ho : env.first.sqlOpen with
  | some x => by_cases hp : path = ":memory:" <;> simp [OpenSqlite.calls, ho, hp, Event.step, Event.err]
  | none =>
    cases he : env.first.exec with
    | some x =>
      by_cases hp : path = ":memory:" <;> simp [OpenSqlite.calls, ho, he, hp, Event.step, Event.err]
    | none =>
      cases hc : env.close with
      | some x =>
        by_cases hp : path = ":memory:" <;>
          simp [OpenSqlite.calls, ho, he, hp, Event.step, Event.err]
      | none =>
        by_cases hl : os.IsNotExist env.lookPath = true
        · by_cases hp : path = ":memory:" <;>
            simp [OpenSqlite.calls, ho, he, hp, hl, Event.step, Event.err, softError]
        · cases hw : env.writeFile with
          | some x =>
            by_cases hp : path = ":memory:" <;>
              simp [OpenSqlite.calls, ho, he, hp, hl, Event.step, Event.err]
          | none =>
            cases hrun : env.run with
            | some x =>
              by_cases hp : path = ":memory:" <;> cases hrm : env.remove <;>
                simp [OpenSqlite.calls, deferredRemove.calls, ho, he, hp, hl, Event.step,
                  Event.err]
            | none =>
              by_cases hp : path = ":memory:" <;> cases ho2 : env.second.sqlOpen <;>
                cases he2 : env.second.exec <;> cases hrm : env.remove <;>
                simp [OpenSqlite.calls, deferredRemove.calls, ho, he, hp, hl, ho2, he2, hrm,
                  Event.step, Event.err]

/-- C3 at the run on a machine without `atlas`: the launch of the command
fails, so the handle is nil and the error is not. -/
theorem OpenAndMigrateSqlite_result_shape_witness :
    (OpenAndMigrateSqlite missingAtlasEnv "create table t(x);" "data/app.db" World.init).1.1 =
        none ∧
      (OpenAndMigrateSqlite missingAtlasEnv "create table t(x);" "data/app.db"
        World.init).1.2 ≠ none :=
  (OpenAndMigrateSqlite_result_shape missingAtlasEnv "create table t(x);" "data/app.db"
    World.init).1 ⟨Event.Run (cmd "data/app.db") (some atlasNotFound), by decide, by decide⟩

/-- C4: in every run of `OpenAndMigrateSqlite` in which `os.WriteFile` wrote
`temp_migration_schema.sql` without error and no `os.Remove` answered an
error, the last call of the run is the removal of that file and the file does
not exist when the call returns. Nothing is assumed of the subprocess or of
the final re-open: the run of the command may succeed or fail, and so may the
re-open. -/
theorem OpenAndMigrateSqlite_temp_file_removed (env : Env) (schema path : String) (w : World)
    (hw : Event.WriteFile "temp_migration_schema.sql" schema 0o666 none ∈
      emitted w (OpenAndMigrateSqlite env schema path w).2)
    (hr : ∀ ev ∈ emitted w (OpenAndMigrateSqlite env schema path w).2,
      ev.step = Step.remove → ev.err = none) :
    "temp_migration_schema.sql" ∉ (OpenAndMigrateSqlite env schema path w).2.files ∧
    (emitted w (OpenAndMigrateSqlite env schema path w).2).getLast? =
      some (Event.Remove "temp_migration_schema.sql" none) ∧
    (∃ err, Event.Run (cmd path) err ∈
      emitted w (OpenAndMigrateSqlite env schema path w).2) := by
  rw [OpenAndMigrateSqlite_emitted] at hw hr ⊢
  unfold OpenAndMigrateSqlite.calls at hw hr ⊢
  cases ho : env.first.sqlOpen with
  | some x =>
    exfalso
    by_cases hp : path = ":memory:" <;> simp [OpenSqlite.calls, ho, hp] at hw
  | none =>
    cases he : env.first.exec with
    | some x =>
      exfalso
      by_cases hp : path = ":memory:" <;> simp [OpenSqlite.calls, ho, he, hp] at hw
    | none =>
      cases hc : env.close with
      | some x =>
        exfalso
        by_cases hp : path = ":memory:" <;> simp [OpenSqlite.calls, ho, he, hc, hp] at hw
      | none =>
        by_cases hl : os.IsNotExist env.lookPath = true
        · exfalso
          by_cases hp : path = ":memory:" <;> simp [OpenSqlite.calls, ho, he, hc, hl, hp] at hw
        · cases hwf : env.writeFile with
          | some x =>
            exfalso
            by_cases hp : path = ":memory:" <;>
              simp [OpenSqlite.calls, ho, he, hc, hl, hwf, hp] at hw
          | none =>
            have hrm : env.remove = none := by
              have := hr (Event.Remove "temp_migration_schema.sql" env.remove)
                (by simp [ho, he, hc, hl, hwf, deferredRemove.calls]) rfl
              simpa [Event.err] using this
            have hl' : os.IsNotExist env.lookPath = false := by simpa using hl
            refine ⟨?_, ?_, ?_⟩
            · rw [OpenAndMigrateSqlite_files env schema path w ho he hc hl' hwf hrm]
              simp
            · simp only [ho, he, hc, hl, hwf, hrm, deferredRemove.calls]
              rw [List.getLast?_append]
              have hlast : ∀ (a : Event) (m : List Event),
                  (a :: (m ++ [Event.Remove "temp_migration_schema.sql" none])).getLast? =
                    some (Event.Remove "temp_migration_schema.sql" none) := by
                intro a m
                rw [← List.cons_append, List.getLast?_concat]
              simp [hlast]
            · exact ⟨env.run, by simp [ho, he, hc, hl, hwf]⟩

/-- C4 at the run on a machine without `atlas`: the file is written, the
command fails to launch, and the file is gone when the call returns. -/
theorem OpenAndMigrateSqlite_temp_file_removed_witness :
    "temp_migration_schema.sql" ∉
      (OpenAndMigrateSqlite missingAtlasEnv "create table t(x);" "data/app.db"
        World.init).2.files :=
  (OpenAndMigrateSqlite_temp_file_removed missingAtlasEnv "create table t(x);" "data/app.db"
    World.init (by decide) (by decide)).1

/-- C5: the answer of the deferred `os.Remove` has no part in what
`OpenAndMigrateSqlite` returns: replacing it by any other answer leaves the
returned handle and error as they were. In particular, when the command ran
without error and the re-open succeeds, a removal that fails with `e` is
logged as a warning and the call still returns the handle created by the
re-open with a nil error. -/
theorem OpenAndMigrateSqlite_remove_not_escalated (env : Env) (remove : Option GoError)
    (schema path : String) (w : World) :
    (OpenAndMigrateSqlite { env with remove := remove } schema path w).1 =
      (OpenAndMigrateSqlite env schema path w).1 ∧
    (∀ e, env.remove = some e →
      Event.Run (cmd path) none ∈ emitted w (OpenAndMigrateSqlite env schema path w).2 →
      env.second.sqlOpen = none → env.second.exec = none →
        (OpenAndMigrateSqlite env schema path w).1 = (some (w.next + 1), none) ∧
        Event.Open "sqlite" path (some (w.next + 1)) none ∈
          emitted w (OpenAndMigrateSqlite env schema path w).2 ∧
        Event.Warn "could not delete temp_migration_schema.sql" "err" e ∈
          emitted w (OpenAndMigrateSqlite env schema path w).2) := by
  constructor
  · rw [OpenAndMigrateSqlite_result, OpenAndMigrateSqlite_result]
  · intro e hrm hrun ho2 he2
    rw [OpenAndMigrateSqlite_emitted] at hrun ⊢
    rw [OpenAndMigrateSqlite_result]
    unfold OpenAndMigrateSqlite.calls at hrun ⊢
    cases ho : env.first.sqlOpen with
    | some x =>
      exfalso
      by_cases hp : path = ":memory:" <;> simp [OpenSqlite.calls, ho, hp] at hrun
    | none =>
      cases he : env.first.exec with
      | some x =>
        exfalso
        by_cases hp : path = ":memory:" <;> simp [OpenSqlite.calls, ho, he, hp] at hrun
      | none =>
        cases hc : env.close with
        | some x =>
          exfalso
          by_cases hp : path = ":memory:" <;> simp [OpenSqlite.calls, ho, he, hc, hp] at hrun
        | none =>
          by_cases hl : os.IsNotExist env.lookPath = true
          · exfalso
            by_cases hp : path = ":memory:" <;>
              simp [OpenSqlite.calls, ho, he, hc, hl, hp] at hrun
          · cases hwf : env.writeFile with
            | some x =>
              exfalso
              by_cases hp : path = ":memory:" <;>
                simp [OpenSqlite.calls, ho, he, hc, hl, hwf, hp] at hrun
            | none =>
              cases hr : env.run with
              | some x =>
                exfalso
                by_cases hp : path = ":memory:" <;>
                  simp [OpenSqlite.calls, deferredRemove.calls, ho, he, hc, hl, hwf, hr, hrm,
                    hp] at hrun
              | none =>
                by_cases hp : path = ":memory:" <;>
                  simp [OpenSqlite.calls, deferredRemove.calls, ho, he, hc, hl, hwf, hr, hrm,
                    ho2, he2, hp]

/-- C5 at a run in which everything succeeds but the removal: the handle of
the re-open and a nil error. -/
theorem OpenAndMigrateSqlite_remove_not_escalated_witness :
    (OpenAndMigrateSqlite { okEnv with remove := some (GoError.Errno 13 "permission denied") }
      "create table t(x);" "data/app.db" World.init).1 = (some 1, none) :=
  ((OpenAndMigrateSqlite_remove_not_escalated
    { okEnv with remove := some (GoError.Errno 13 "permission denied") } none
    "create table t(x);" "data/app.db" World.init).2
      (GoError.Errno 13 "permission denied") rfl (by decide) rfl rfl).1

/-- C9 as stated fails at the relative path `data/app.db`: the run in which
every call succeeds launches `atlas` with the URL `sqlite://data/app.db`,
whose scheme is `sqlite` but whose authority is `data` and whose path
component is `/app.db`, not the database path. -/
theorem OpenAndMigrateSqlite_relative_path_url :
    Event.Run (cmd "data/app.db") none ∈
      emitted World.init
        (OpenAndMigrateSqlite okEnv "create table t(x);" "data/app.db" World.init).2 ∧
    (cmd "data/app.db").args =
      ["schema", "apply", "--url", "sqlite://data/app.db", "--to",
        "file://temp_migration_schema.sql", "--dev-url", "sqlite://file?mode=memory"] ∧
    rfc3986.split (dbUrl "data/app.db").String =
      { scheme := some "sqlite", authority := some "data", path := "/app.db", query := none,
        fragment := none } ∧
    (rfc3986.split (dbUrl "data/app.db").String).path ≠ "data/app.db" := by
  decide

/-- C9, amended: every command `OpenAndMigrateSqlite` runs is `atlas` with
the argument vector `schema apply --url U --to
file://temp_migration_schema.sql --dev-url sqlite://file?mode=memory`, where
`U` is the serialisation of the URL value with scheme `sqlite` and path the
database path: `sqlite:`, then `//` unless the path is empty, then the escaped
path. The scheme of `U` is `sqlite` for every path. For a non-empty path the
authority of `U` is what precedes the first `/` of the escaped path and the
path component is the rest: for an absolute path the authority is empty and
the path component is the escaped database path, which is the database path
itself when none of its bytes needs escaping. -/
theorem OpenAndMigrateSqlite_command (env : Env) (schema path : String) (w : World) :
    (∀ ev ∈ emitted w (OpenAndMigrateSqlite env schema path w).2,
      ev.step = Step.run → ev = Event.Run (cmd path) env.run) ∧
    (cmd path).name = "atlas" ∧
    (cmd path).args =
      ["schema", "apply", "--url", (dbUrl path).String, "--to",
        "file://temp_migration_schema.sql", "--dev-url", "sqlite://file?mode=memory"] ∧
    ((dbUrl path).Scheme = "sqlite" ∧ (dbUrl path).Path = path) ∧
    (dbUrl path).String =
      "sqlite:" ++ (if path = "" then "" else "//") ++ (dbUrl path).EscapedPath ∧
    (rfc3986.split (dbUrl path).String).scheme = some "sqlite" ∧
    (path ≠ "" →
      (rfc3986.split (dbUrl path).String).authority =
        some (String.mk ((dbUrl path).EscapedPath.data.takeWhile (fun c => c ≠ '/'))) ∧
      (rfc3986.split (dbUrl path).String).path =
        String.mk ((dbUrl path).EscapedPath.data.dropWhile (fun c => c ≠ '/'))) ∧
    (path.data.head? = some '/' →
      (rfc3986.split (dbUrl path).String).authority = some "" ∧
      (rfc3986.split (dbUrl path).String).path = escape path ∧
      ((∀ c ∈ path.data, c.toNat < 128 ∧ shouldEscape c = false) →
        (rfc3986.split (dbUrl path).String).path = path)) := by
  refine ⟨?_, rfl, rfl, ⟨rfl, rfl⟩, dbUrl_String path, ?_, ?_, ?_⟩
  · rw [OpenAndMigrateSqlite_emitted]
    unfold OpenAndMigrateSqlite.calls
    cases ho : env.first.sqlOpen with
    | some x => by_cases hp : path = ":memory:" <;> simp [OpenSqlite.calls, ho, hp, Event.step]
    | none =>
      cases he : env.first.exec with
      | some x =>
        by_cases hp : path = ":memory:" <;> simp [OpenSqlite.calls, ho, he, hp, Event.step]
      | none =>
        cases hc : env.close with
        | some x =>
          by_cases hp : path = ":memory:" <;> simp [OpenSqlite.calls, ho, he, hp, Event.step]
        | none =>
          by_cases hl : os.IsNotExist env.lookPath = true
          · by_cases hp : path = ":memory:" <;>
              simp [OpenSqlite.calls, ho, he, hp, hl, Event.step]
          · cases hw : env.writeFile with
            | some x =>
              by_cases hp : path = ":memory:" <;>
                simp [OpenSqlite.calls, ho, he, hp, hl, Event.step]
            | none =>
              by_cases hp : path = ":memory:" <;> cases hrun : env.run <;>
                cases ho2 : env.second.sqlOpen <;> cases hrm : env.remove <;>
                simp [OpenSqlite.calls, deferredRemove.calls, ho, he, hp, hl, ho2, hrm,
                  Event.step]
  · by_cases hp : path = ""
    · subst hp; decide
    · rw [split_dbUrl path hp]
  · intro hp
    rw [split_dbUrl path hp]
    exact ⟨rfl, rfl⟩
  · intro hh
    have hp : path ≠ "" := by
      intro h0; subst h0; simp at hh
    obtain ⟨cs⟩ := path
    cases cs with
    | nil => simp at hh
    | cons a t =>
      simp only [List.head?_cons, Option.some.injEq] at hh
      subst hh
      have hstar : String.mk ('/' :: t) ≠ "*" := by
        intro h1; have := congrArg String.data h1; simp at this
      have hep : (dbUrl (String.mk ('/' :: t))).EscapedPath.data =
          '/' :: (escape (String.mk t)).data := by
        simp only [URL.EscapedPath, dbUrl, hstar, if_false, escape_cons_slash]
      have hpath : (rfc3986.split (dbUrl (String.mk ('/' :: t))).String).path =
          escape (String.mk ('/' :: t)) := by
        rw [split_dbUrl _ hp, hep]
        simp [List.dropWhile_cons, String.ext_iff, escape_cons_slash]
      refine ⟨?_, hpath, ?_⟩
      · rw [split_dbUrl _ hp, hep]
        simp [List.takeWhile_cons]
      · intro hsafe
        rw [hpath, escape_eq_self _ hsafe]

/-- C9, amended, at the absolute path `/var/db/app.db`: the path component
of the URL is the database path. -/
theorem OpenAndMigrateSqlite_command_witness :
    (rfc3986.split (dbUrl "/var/db/app.db").String).path = "/var/db/app.db" :=
  ((OpenAndMigrateSqlite_command okEnv "create table t(x);" "/var/db/app.db"
    World.init).2.2.2.2.2.2.2 (by decide)).2.2 (by decide)

/-- C10: `OpenAndMigrateSqlite` does not apply the text `open sqlite: ` the
same number of times on its two opens. When the first `OpenSqlite` fails with
cause `e` the message of the returned error is `open sqlite: open sqlite: `
followed by the message of `e`, and `e` is reached by unwrapping twice, not
once. When the first open, the close, the write of the temporary file and the
run of the command all succeed, the lookup error does not pass
`os.IsNotExist`, and the final `OpenSqlite` fails with cause `e`, the command
was run, the call returns a nil handle with `wrapErr e`, whose message is
`open sqlite: ` followed by the message of `e`, and `e` is reached by
unwrapping once. -/
theorem OpenAndMigrateSqlite_wrap_twice_then_once (env : Env) (schema path : String)
    (w : World) (e : GoError) :
    (env.first.failsWith e →
      ∃ r, (OpenAndMigrateSqlite env schema path w).1 = (none, some r) ∧
        r.Error = "open sqlite: open sqlite: " ++ e.Error ∧
        r.Unwrap.bind GoError.Unwrap = some e ∧
        r.Unwrap ≠ some e) ∧
    (env.first.sqlOpen = none → env.first.exec = none → env.close = none →
      os.IsNotExist env.lookPath = false → env.writeFile = none → env.run = none →
      env.second.failsWith e →
      Event.Run (cmd path) none ∈ emitted w (OpenAndMigrateSqlite env schema path w).2 ∧
      ∃ r, (OpenAndMigrateSqlite env schema path w).1 = (none, some r) ∧
        r = wrapErr e ∧
        r.Error = "open sqlite: " ++ e.Error ∧
        r.Unwrap = some e) := by
  have happ : ∀ s : String, "open sqlite: " ++ ("open sqlite: " ++ s) =
      "open sqlite: open sqlite: " ++ s := by
    intro s; rw [← String.append_assoc]; rfl
  have hne : ∀ x : GoError, wrapErr x ≠ x := by
    intro x hx
    have := congrArg sizeOf hx
    simp [wrapErr, Errorf_w] at this
  constructor
  · intro hf
    rw [OpenAndMigrateSqlite_result]
    rcases hf with hf | ⟨hf1, hf2⟩
    · refine ⟨wrapErr (wrapErr e), by simp [hf], ?_, ?_, ?_⟩
      · simp [wrapErr, Errorf_w, GoError.Error, happ]
      · simp [wrapErr, Errorf_w, GoError.Unwrap]
      · simpa [wrapErr, Errorf_w, GoError.Unwrap] using hne e
    · refine ⟨wrapErr (wrapErr e), by simp [hf1, hf2], ?_, ?_, ?_⟩
      · simp [wrapErr, Errorf_w, GoError.Error, happ]
      · simp [wrapErr, Errorf_w, GoError.Unwrap]
      · simpa [wrapErr, Errorf_w, GoError.Unwrap] using hne e
  · intro ho he hc hl hwf hr hf
    constructor
    · rw [OpenAndMigrateSqlite_emitted]
      unfold OpenAndMigrateSqlite.calls
      simp [ho, he, hc, hl, hwf, hr]
    · rw [OpenAndMigrateSqlite_result]
      rcases hf with hf | ⟨hf1, hf2⟩
      · exact ⟨wrapErr e, by simp [ho, he, hc, hl, hwf, hr, hf], rfl,
          by simp [wrapErr, Errorf_w, GoError.Error],
          by simp [wrapErr, Errorf_w, GoError.Unwrap]⟩
      · exact ⟨wrapErr e, by simp [ho, he, hc, hl, hwf, hr, hf1, hf2], rfl,
          by simp [wrapErr, Errorf_w, GoError.Error],
          by simp [wrapErr, Errorf_w, GoError.Unwrap]⟩

/-- C10 at two runs. In the first the driver refuses the first open: the text
is there twice. In the second everything succeeds up to the final re-open,
whose pragma fails: the command was run and the text is there once. -/
theorem OpenAndMigrateSqlite_wrap_twice_then_once_witness :
    (∃ r, (OpenAndMigrateSqlite
          { okEnv with first := { okOpen with sqlOpen := some (GoError.errorString "boom") } }
          "create table t(x);" "data/app.db" World.init).1 = (none, some r) ∧
      r.Error = "open sqlite: open sqlite: " ++ (GoError.errorString "boom").Error ∧
      r.Unwrap.bind GoError.Unwrap = some (GoError.errorString "boom") ∧
      r.Unwrap ≠ some (GoError.errorString "boom")) ∧
    (Event.Run (cmd "data/app.db") none ∈ emitted World.init
        (OpenAndMigrateSqlite
          { okEnv with second := { okOpen with exec := some (GoError.errorString "locked") } }
          "create table t(x);" "data/app.db" World.init).2 ∧
      ∃ r, (OpenAndMigrateSqlite
          { okEnv with second := { okOpen with exec := some (GoError.errorString "locked") } }
          "create table t(x);" "data/app.db" World.init).1 = (none, some r) ∧
        r = wrapErr (GoError.errorString "locked") ∧
        r.Error = "open sqlite: " ++ (GoError.errorString "locked").Error ∧
        r.Unwrap = some (GoError.errorString "locked")) :=
  ⟨(OpenAndMigrateSqlite_wrap_twice_then_once
      { okEnv with first := { okOpen with sqlOpen := some (GoError.errorString "boom") } }
      "create table t(x);" "data/app.db" World.init (GoError.errorString "boom")).1
      (Or.inl rfl),
    (OpenAndMigrateSqlite_wrap_twice_then_once
      { okEnv with second := { okOpen with exec := some (GoError.errorString "locked") } }
      "create table t(x);" "data/app.db" World.init (GoError.errorString "locked")).2
      rfl rfl rfl rfl rfl rfl (Or.inr ⟨rfl, rfl⟩)⟩

end sqliteutil
